import Mathlib

/-!
Verification development for the BlackLine repository (client.py, server.py,
database.py): a shallow embedding of the client's command dispatch, streaming
and reconnect loops, and of the server's connection manager, screenshot
correlation table and listing commands, together with theorems settling the
specification's claims about them.
-/

namespace BlackLine

/-! Association lists standing for Python dicts (unique keys in all program
states).  Assignment replaces the value at an existing key in place, else
appends; deletion removes the key; lookup returns the stored value. -/

def dictInsert {α β : Type} [DecidableEq α] : List (α × β) → α → β → List (α × β)
  | [], k, v => [(k, v)]
  | p :: rest, k, v => if p.1 = k then (k, v) :: rest else p :: dictInsert rest k v

def dictErase {α β : Type} [DecidableEq α] (m : List (α × β)) (k : α) : List (α × β) :=
  m.filter (fun p => decide (p.1 ≠ k))

def dictGet? {α β : Type} [DecidableEq α] (m : List (α × β)) (k : α) : Option β :=
  (m.find? (fun p => decide (p.1 = k))).map (fun p => p.2)

/-! Base64 encoding, as performed by the `base64.b64encode` library call on the
JPEG bytes before they are placed in a `screenshot` or `stream_frame` reply.
Bytes are naturals below 256. -/

def base64_alphabet : List Char :=
  ['A','B','C','D','E','F','G','H','I','J','K','L','M','N','O','P','Q','R','S','T','U','V',
   'W','X','Y','Z','a','b','c','d','e','f','g','h','i','j','k','l','m','n','o','p','q','r',
   's','t','u','v','w','x','y','z','0','1','2','3','4','5','6','7','8','9','+','/']

def sextet (n : Nat) : Char := base64_alphabet.getD n 'A'

def b64chars : List Nat → List Char
  | [] => []
  | [a] => [sextet (a / 4 % 64), sextet (a % 4 * 16), '=', '=']
  | [a, b] => [sextet (a / 4 % 64), sextet (a % 4 * 16 + b / 16 % 16), sextet (b % 16 * 4), '=']
  | a :: b :: c :: rest =>
      sextet (a / 4 % 64) :: sextet (a % 4 * 16 + b / 16 % 16) ::
        sextet (b % 16 * 4 + c / 64 % 4) :: sextet (c % 64) :: b64chars rest

def b64encode (bs : List Nat) : String := String.mk (b64chars bs)

/-! Client-side data model (client.py). -/

/-- Reply envelopes the client sends to the server: acknowledgements, single
screenshots and streaming frames, each image carried base64-encoded. -/
inductive Reply where
  | ack (command : String)
  | screenshot (image : String)
  | streamFrame (image : String)
deriving DecidableEq

/-- Calls issued to the external actuator capabilities (pyautogui, webbrowser).
Key arguments are optional because a missing JSON `key` field reaches the
actuator as a missing value. -/
inductive ActuatorCall where
  | moveTo (x y : Int)
  | mouseDown (button : String)
  | mouseUp (button : String)
  | click (button : String)
  | doubleClick (button : String)
  | scroll (amount : Int)
  | write (text : String)
  | keyDown (key : Option String)
  | keyUp (key : Option String)
  | openUrl (url : String)
deriving DecidableEq

/-- Streaming-related state of `BlackLineClient`: the `is_streaming` flag and
whether `stream_task` currently holds a task. -/
structure ClientState where
  is_streaming : Bool
  has_stream_task : Bool
deriving DecidableEq

/-- Constant `STREAM_FPS = 30` from client.py. -/
def STREAM_FPS : Nat := 30

/-- Constant `RECONNECT_DELAY = 5` (seconds) from client.py. -/
def RECONNECT_DELAY : Nat := 5

/-- Model of `_capture_screen`: every exception inside it is caught and turned
into empty bytes, so a capture error never propagates to the caller. -/
def capture_screen (raises : Bool) (frame : List Nat) : List Nat :=
  if raises then [] else frame

/-- List of the command names extracted from the `ack` replies of a handler
run; the other reply kinds carry no acknowledgement. -/
def acksOf (rs : List Reply) : List String :=
  rs.filterMap (fun r =>
    match r with
    | Reply.ack c => some c
    | _ => none)

/-- Model of `handle_screenshot_request`: capture (errors swallowed inside
`_capture_screen`), send the image if non-empty, then ack.  `send` catches its
own errors, so the ack line is always reached. -/
def handle_screenshot_request (captureRaises : Bool) (frame : List Nat) : List Reply :=
  let image_data := capture_screen captureRaises frame
  (if image_data.isEmpty then [] else [Reply.screenshot (b64encode image_data)]) ++
    [Reply.ack "screenshot_request"]

/-- Events in the execution of `handle_shutdown`, in order. -/
inductive ShutdownEvent where
  | sendAck (command : String)
  | sleepMs (ms : Nat)
  | platformShutdown
deriving DecidableEq

/-- Model of `handle_shutdown`: ack, then `asyncio.sleep(0.5)` (500 ms), then
the `os.system` shutdown call.  An exception raised by the platform call is
caught by the surrounding `try`, and nothing follows the call, so the trace of
attempted events is the same on every execution. -/
def handle_shutdown_events : List ShutdownEvent :=
  [ShutdownEvent.sendAck "shutdown", ShutdownEvent.sleepMs 500, ShutdownEvent.platformShutdown]

/-- Replies produced by `handle_shutdown`: the acks appearing in its event
trace. -/
def shutdown_replies : List Reply :=
  handle_shutdown_events.filterMap (fun e =>
    match e with
    | ShutdownEvent.sendAck c => some (Reply.ack c)
    | _ => none)

/-- Model of `handle_browser`: `webbrowser.open(url)` then ack; a raising open
call is caught by the handler's `except`, which only logs, so no ack follows. -/
def handle_browser (raises : Bool) (url : String) : List ActuatorCall × List Reply :=
  if raises then ([], []) else ([ActuatorCall.openUrl url], [Reply.ack "browser"])

/-- Constant `interval=0.05` (50 ms per character) of `pyautogui.write` in
`handle_type`. -/
def TYPE_INTERVAL_MS : Nat := 50

/-- Model of `handle_type`: `pyautogui.write(text, interval=0.05)` then ack; a
raising write is caught and logged, and no ack is sent. -/
def handle_type (raises : Bool) (text : String) : List ActuatorCall × List Reply :=
  if raises then ([], []) else ([ActuatorCall.write text], [Reply.ack "type"])

/-- The `button_map = \x7b0: left, 1: middle, 2: right\x7d` dictionary of
`handle_mouse_event`, with `.get`'s fallback `'left'` for unrecognized codes. -/
def button_map (code : Int) : String :=
  if code = 0 then "left" else if code = 1 then "middle" else if code = 2 then "right" else "left"

/-- The `pyautogui_button` computation of `handle_mouse_event`:
`kwargs.get('button', 1)` supplies code 1 when the field is absent, then the
code goes through `button_map.get(button, 'left')`. -/
def pyautogui_button (button : Option Int) : String :=
  button_map (button.getD 1)

/-- Actuator calls the body of `handle_mouse_event` executes for a given event
and arguments (before considering exceptions): move events need both
coordinates, press/click events move first when both coordinates are present,
wheel scrolls by the negated delta, and an unknown event does nothing. -/
def mouse_calls (event : String) (x y : Option Int) (button : Option Int) (deltaY : Int) :
    List ActuatorCall :=
  let btn := pyautogui_button button
  let optMove : List ActuatorCall :=
    match x, y with
    | some a, some b => [ActuatorCall.moveTo a b]
    | _, _ => []
  if event = "mousemove" then optMove
  else if event = "mousedown" then optMove ++ [ActuatorCall.mouseDown btn]
  else if event = "mouseup" then [ActuatorCall.mouseUp btn]
  else if event = "click" then optMove ++ [ActuatorCall.click btn]
  else if event = "doubleclick" then optMove ++ [ActuatorCall.doubleClick btn]
  else if event = "wheel" then [ActuatorCall.scroll (-deltaY)]
  else []

/-- Model of `handle_mouse_event`.  `raises` says that the actuator raises on
its first call; the handler's `except` catches it and only logs, so no ack is
sent.  When the event executes no actuator call, nothing can raise and the ack
always follows. -/
def handle_mouse_event (raises : Bool) (event : String) (x y : Option Int)
    (button : Option Int) (deltaY : Int) : List ActuatorCall × List Reply :=
  let calls := mouse_calls event x y button deltaY
  if raises ∧ calls ≠ [] then ([], [])
  else (calls, [Reply.ack "mouse_event"])

/-- The shared part of the `key_map` dictionaries of `handle_keyboard_event`
(the keydown table additionally holds the function keys). -/
def key_map_common : List (String × String) :=
  [("Enter", "enter"), ("Escape", "esc"), ("Backspace", "backspace"), ("Delete", "delete"),
   ("ArrowUp", "up"), ("ArrowDown", "down"), ("ArrowLeft", "left"), ("ArrowRight", "right"),
   ("Tab", "tab"), ("Space", "space"), ("Control", "ctrl"), ("Alt", "alt"),
   ("Shift", "shift"), ("Meta", "command")]

/-- Function-key rows present only in the keydown table. -/
def key_map_fkeys : List (String × String) :=
  [("F1", "f1"), ("F2", "f2"), ("F3", "f3"), ("F4", "f4"), ("F5", "f5"), ("F6", "f6"),
   ("F7", "f7"), ("F8", "f8"), ("F9", "f9"), ("F10", "f10"), ("F11", "f11"), ("F12", "f12")]

/-- The `key_map.get(key, key)` translation: a key found in the table is
replaced, any other key passes through literally. -/
def key_translate (table : List (String × String)) (k : String) : String :=
  (dictGet? table k).getD k

/-- Model of `handle_keyboard_event`: keydown and keyup translate the key
through their tables and call the actuator (the `len == 1` conditional in the
source has identical branches), then ack; other events fall straight through
to the ack.  A raising actuator call is caught and logged with no ack. -/
def handle_keyboard_event (raises : Bool) (event : String) (key : Option String) :
    List ActuatorCall × List Reply :=
  if event = "keydown" then
    if raises then ([], [])
    else ([ActuatorCall.keyDown (key.map (key_translate (key_map_common ++ key_map_fkeys)))],
          [Reply.ack "keyboard_event"])
  else if event = "keyup" then
    if raises then ([], [])
    else ([ActuatorCall.keyUp (key.map (key_translate key_map_common))],
          [Reply.ack "keyboard_event"])
  else ([], [Reply.ack "keyboard_event"])

/-- Model of `handle_start_stream`: when not streaming, set `is_streaming`,
create the stream task, then ack; when already streaming, just ack.  If task
creation raised, `is_streaming` would already be set and no ack would follow. -/
def handle_start_stream (raises : Bool) (st : ClientState) : ClientState × List Reply :=
  if st.is_streaming = false then
    if raises then ({ st with is_streaming := true }, [])
    else ({ st with is_streaming := true, has_stream_task := true }, [Reply.ack "start_stream"])
  else (st, [Reply.ack "start_stream"])

/-- Model of `handle_stop_stream`: clear `is_streaming`; if a task exists,
cancel it, await it and clear the handle; then ack.  With no task the cancel
block is skipped and the ack is sent directly.  An exception while cancelling
would be caught with the task handle still set and no ack. -/
def handle_stop_stream (raises : Bool) (st : ClientState) : ClientState × List Reply :=
  let st1 : ClientState := { st with is_streaming := false }
  if st1.has_stream_task then
    if raises then (st1, [])
    else ({ st1 with has_stream_task := false }, [Reply.ack "stop_stream"])
  else (st1, [Reply.ack "stop_stream"])

/-- An inbound JSON message, restricted to the fields the client reads.  A
`none` field is one absent from the JSON object. -/
structure Message where
  type : Option String := none
  url : Option String := none
  text : Option String := none
  event : Option String := none
  key : Option String := none
  code : Option String := none
  x : Option Int := none
  y : Option Int := none
  button : Option Int := none
  deltaX : Option Int := none
  deltaY : Option Int := none
deriving DecidableEq

/-- Oracle for the behaviour of the external capabilities during one dispatch:
whether each handler's external call raises, and the bytes a screen capture
would return. -/
structure Effects where
  captureRaises : Bool := false
  frame : List Nat := []
  browserRaises : Bool := false
  typeRaises : Bool := false
  mouseRaises : Bool := false
  keyboardRaises : Bool := false
  startRaises : Bool := false
  stopRaises : Bool := false
deriving DecidableEq

/-- No external side-effect call raises during the dispatch (capture errors
are allowed: `_capture_screen` swallows them itself). -/
def no_raises (eff : Effects) : Prop :=
  eff.browserRaises = false ∧ eff.typeRaises = false ∧ eff.mouseRaises = false ∧
    eff.keyboardRaises = false ∧ eff.startRaises = false ∧ eff.stopRaises = false

/-- The valid command kinds of the dispatch table in `process_message`. -/
def valid_kinds : List String :=
  ["screenshot_request", "shutdown", "browser", "type", "mouse_event", "keyboard_event",
   "start_stream", "stop_stream"]

/-- Model of `process_message`: route on the `type` field; a missing type
returns silently, an unknown type is logged and ignored.  The `mouse_event`
branch calls `handle_mouse_event(event, **message)`: when the message itself
carries an `event` key, Python raises a duplicate-argument TypeError at the
call, which the outer `except` catches and logs, so the handler body never
runs and no ack is sent; only an event-less mouse message reaches the handler
(with `event` defaulted to the empty string).  Result: updated client state,
actuator calls made, and replies sent. -/
def process_message (eff : Effects) (st : ClientState) (msg : Message) :
    ClientState × List ActuatorCall × List Reply :=
  match msg.type with
  | none => (st, [], [])
  | some t =>
    if t = "screenshot_request" then
      (st, [], handle_screenshot_request eff.captureRaises eff.frame)
    else if t = "shutdown" then
      (st, [], shutdown_replies)
    else if t = "browser" then
      let r := handle_browser eff.browserRaises (msg.url.getD "")
      (st, r.1, r.2)
    else if t = "type" then
      let r := handle_type eff.typeRaises (msg.text.getD "")
      (st, r.1, r.2)
    else if t = "mouse_event" then
      match msg.event with
      | some _ => (st, [], [])
      | none =>
        let r := handle_mouse_event eff.mouseRaises "" msg.x msg.y msg.button (msg.deltaY.getD 0)
        (st, r.1, r.2)
    else if t = "keyboard_event" then
      let r := handle_keyboard_event eff.keyboardRaises (msg.event.getD "") msg.key
      (st, r.1, r.2)
    else if t = "start_stream" then
      let r := handle_start_stream eff.startRaises st
      (r.1, [], r.2)
    else if t = "stop_stream" then
      let r := handle_stop_stream eff.stopRaises st
      (r.1, [], r.2)
    else (st, [], [])

/-! The streaming loop `_stream_screen`. -/

/-- The per-frame target interval `frame_delay = 1.0 / STREAM_FPS` in seconds. -/
def frame_delay : ℚ := 1 / 30

/-- What the environment does during one iteration of the streaming loop:
whether a cancellation is delivered, whether an exception escapes into the
loop body (capture and send swallow their own errors, so this covers only
other failures), whether the capture or the send call errors, and the bytes a
successful capture returns. -/
structure StreamIterOracle where
  cancelled : Bool := false
  bodyRaises : Bool := false
  captureRaises : Bool := false
  sendRaises : Bool := false
  frame : List Nat := []
deriving DecidableEq

/-- Result of one pass of `_stream_screen`'s `while` loop. -/
inductive StreamStep where
  | exited
  | continued (sent : List Reply) (sleepSeconds : ℚ)
deriving DecidableEq

/-- Model of one pass of `_stream_screen`: exit when `is_streaming` is false
or a cancellation arrives; an exception escaping into the body sleeps one
second and retries; otherwise capture (errors yield empty bytes), send the
frame when non-empty (send errors are swallowed by `send`), and sleep
`max(0, frame_delay - elapsed)`. -/
def stream_step (is_streaming : Bool) (o : StreamIterOracle) (elapsed : ℚ) : StreamStep :=
  if is_streaming = false then StreamStep.exited
  else if o.cancelled then StreamStep.exited
  else if o.bodyRaises then StreamStep.continued [] 1
  else
    let image_data := capture_screen o.captureRaises o.frame
    let sent :=
      if image_data.isEmpty then []
      else if o.sendRaises then []
      else [Reply.streamFrame (b64encode image_data)]
    StreamStep.continued sent (max 0 (frame_delay - elapsed))

/-! The main loop `run` with its auto-reconnect. -/

/-- Events observable from the main loop: a connection attempt with its
outcome, a sleep of the fixed reconnect delay, and a connected session (the
inner message loop, however it ends). -/
inductive RunEvent where
  | connectAttempt (ok : Bool)
  | sleepSec (n : Nat)
  | session
deriving DecidableEq

/-- Model of `run`, unfolded over a finite prefix of connection outcomes: a
failed `connect` sleeps `RECONNECT_DELAY` and retries; a successful one runs
the message loop until it breaks, then disconnects, sleeps `RECONNECT_DELAY`
and reconnects.  The loop itself is `while True` — it never returns. -/
def run_trace : List Bool → List RunEvent
  | [] => []
  | ok :: rest =>
    if ok then
      RunEvent.connectAttempt true :: RunEvent.session ::
        RunEvent.sleepSec RECONNECT_DELAY :: run_trace rest
    else
      RunEvent.connectAttempt false :: RunEvent.sleepSec RECONNECT_DELAY :: run_trace rest

/-- Number of connection attempts in a trace. -/
def attemptCount (tr : List RunEvent) : Nat :=
  tr.countP (fun e =>
    match e with
    | RunEvent.connectAttempt _ => true
    | _ => false)

/-- Scans a trace checking that a sleep of at least `RECONNECT_DELAY` seconds
separates every two consecutive connection attempts; the flag records that an
attempt has happened with no qualifying sleep since. -/
def attempts_separated : Bool → List RunEvent → Bool
  | _, [] => true
  | needSleep, RunEvent.connectAttempt _ :: rest => !needSleep && attempts_separated true rest
  | needSleep, RunEvent.sleepSec n :: rest =>
      attempts_separated (needSleep && decide (n < RECONNECT_DELAY)) rest
  | needSleep, RunEvent.session :: rest => attempts_separated needSleep rest

/-- One receive in the inner message loop of `run`. -/
inductive RecvOutcome where
  | text (s : String)
  | malformed
  | closed
  | recvFailure
deriving DecidableEq

/-- Whether the inner loop continues or breaks out to the reconnect path. -/
inductive InnerStep where
  | continueLoop
  | breakLoop
deriving DecidableEq

/-- Model of one pass of the inner message loop: a delivered frame is decoded
and dispatched (`process_message` catches everything), invalid JSON logs and
continues, a closed connection or any other receive error breaks out to the
reconnect path — never out of `run`. -/
def recv_step : RecvOutcome → InnerStep
  | RecvOutcome.text _ => InnerStep.continueLoop
  | RecvOutcome.malformed => InnerStep.continueLoop
  | RecvOutcome.closed => InnerStep.breakLoop
  | RecvOutcome.recvFailure => InnerStep.breakLoop

/-! Server-side data model (server.py, database.py).  WebSocket channels and
future objects are identified by opaque numeric tokens. -/

/-- The `ClientStatus` enum of database.py. -/
inductive ClientStatus where
  | online
  | offline
deriving DecidableEq

/-- A row of the `clients` table: id (AUTOINCREMENT, unique per name), name
(UNIQUE), stored status and last-seen timestamp. -/
structure DbClient where
  id : Nat
  name : String
  status : ClientStatus
  last_seen : Nat
deriving DecidableEq

/-- Fresh AUTOINCREMENT id: one past the largest id ever used. -/
def next_id (db : List DbClient) : Nat :=
  (db.map (fun c => c.id)).foldr max 0 + 1

/-- Model of `get_or_create_client`: return the existing row for the name, or
insert a new one with status offline and the current time. -/
def get_or_create_client (db : List DbClient) (name : String) (now : Nat) :
    DbClient × List DbClient :=
  match db.find? (fun c => c.name == name) with
  | some c => (c, db)
  | none =>
    let c : DbClient := ⟨next_id db, name, ClientStatus.offline, now⟩
    (c, db ++ [c])

/-- Model of `update_client_status`: set status and last-seen on the row with
the given id. -/
def update_client_status (db : List DbClient) (client_id : Nat) (st : ClientStatus)
    (now : Nat) : List DbClient :=
  db.map (fun c => if c.id = client_id then { c with status := st, last_seen := now } else c)

/-- The `ConnectionManager`'s two dicts: `active_connections : client_id ->
WebSocket` and `name_to_id : client_name -> client_id`. -/
structure ConnectionManager where
  active_connections : List (Nat × Nat)
  name_to_id : List (String × Nat)
deriving DecidableEq

/-- Hub process state: the durable directory, the in-memory connection
manager, and the in-memory `screenshot_pending : client_id -> Future` table. -/
structure ServerState where
  db : List DbClient
  manager : ConnectionManager
  screenshot_pending : List (Nat × Nat)
deriving DecidableEq

/-- Model of `ConnectionManager.connect` as called by `websocket_endpoint`:
accept, get-or-create the directory row for the name, store the channel under
the row's id (overwriting any previous channel under that id), map the name to
the id, and mark the row online.  Returns the `client_id` the endpoint task
captures. -/
def cm_connect (s : ServerState) (ws : Nat) (client_name : String) (now : Nat) :
    Nat × ServerState :=
  let r := get_or_create_client s.db client_name now
  let client := r.1
  let ac := dictInsert s.manager.active_connections client.id ws
  let ni := dictInsert s.manager.name_to_id client_name client.id
  let db2 := update_client_status r.2 client.id ClientStatus.online now
  (client.id, ⟨db2, ⟨ac, ni⟩, s.screenshot_pending⟩)

/-- Model of `ConnectionManager.disconnect`: drop the routing entry stored
under the id, and every name mapping to that id.  The channel instance plays
no part in the removal. -/
def cm_disconnect (m : ConnectionManager) (client_id : Nat) : ConnectionManager :=
  ⟨dictErase m.active_connections client_id,
   m.name_to_id.filter (fun p => decide (p.2 ≠ client_id))⟩

/-- Model of the teardown path of `websocket_endpoint` (on
`WebSocketDisconnect` or any other receive error): `manager.disconnect` with
the `client_id` captured at connect time, then mark the directory row
offline. -/
def endpoint_teardown (s : ServerState) (client_id : Nat) (now : Nat) : ServerState :=
  ⟨update_client_status s.db client_id ClientStatus.offline now,
   cm_disconnect s.manager client_id,
   s.screenshot_pending⟩

/-- Registration step of `send_screenshot`: `screenshot_pending[client_id] =
future`, silently overwriting any pending entry for that client. -/
def register_pending (p : List (Nat × Nat)) (client_id fut : Nat) : List (Nat × Nat) :=
  dictInsert p client_id fut

/-- The `finally` block of `send_screenshot`: delete the entry for the client
if one is present (deleting an absent key is a no-op). -/
def clear_pending (p : List (Nat × Nat)) (client_id : Nat) : List (Nat × Nat) :=
  dictErase p client_id

/-- Model of the reply routing in `websocket_endpoint`: a `screenshot` message
carrying an `image` field resolves the pending future registered for that
connection's client id, if any; every other inbound kind resolves nothing. -/
def route_reply (p : List (Nat × Nat)) (client_id : Nat) (msg_type : String)
    (hasImage : Bool) : Option Nat :=
  if (msg_type == "screenshot") && hasImage then dictGet? p client_id else none

/-- The `timeout=10.0` seconds deadline of `asyncio.wait_for` in
`send_screenshot`. -/
def SCREENSHOT_TIMEOUT : Nat := 10

/-- How the wait for the screenshot future ends. -/
inductive WaitResult where
  | reply (image : String)
  | timeout
  | err
deriving DecidableEq

/-- User-visible outcome of `send_screenshot`: the distinct chat messages sent
on each exit path. -/
inductive ScreenshotOutcome where
  | offline
  | success (image : String)
  | timedOut
  | errored
deriving DecidableEq

/-- Model of `send_screenshot`: report offline immediately when the client has
no routing entry; otherwise register the pending future, send the request and
wait: a reply within the deadline succeeds, `asyncio.TimeoutError` reports the
timeout message, any other exception reports the error message, and the
`finally` block clears the pending entry on every one of those paths. -/
def send_screenshot (s : ServerState) (client_id fut : Nat) (wait : WaitResult) :
    ScreenshotOutcome × ServerState :=
  if (dictGet? s.manager.active_connections client_id).isNone then
    (ScreenshotOutcome.offline, s)
  else
    let pending1 := register_pending s.screenshot_pending client_id fut
    let outcome :=
      match wait with
      | WaitResult.reply img => ScreenshotOutcome.success img
      | WaitResult.timeout => ScreenshotOutcome.timedOut
      | WaitResult.err => ScreenshotOutcome.errored
    (outcome, ⟨s.db, s.manager, clear_pending pending1 client_id⟩)

/-- The status string reported by the `/clients` HTTP endpoint
(`c.status.value`). -/
def statusValue : ClientStatus → String
  | ClientStatus.online => "online"
  | ClientStatus.offline => "offline"

/-- Model of the `/clients` HTTP endpoint: every directory row with its stored
status string and last-seen time; the live routing table is not consulted. -/
def get_clients (s : ServerState) : List (Nat × String × String × Nat) :=
  s.db.map (fun c => (c.id, c.name, statusValue c.status, c.last_seen))

/-- Model of the Telegram `/list` command: one line per directory row, whose
green/red icon — the reported online flag — is chosen by comparing the STORED
status with `ClientStatus.ONLINE`. -/
def cmd_list_flags (s : ServerState) : List (Nat × String × Bool) :=
  s.db.map (fun c => (c.id, c.name, if c.status = ClientStatus.online then true else false))

/-- Modelled from the claim's wording (not from a source function): the agent
id currently has a live connection in the routing table.  Used to compare the
flag the code reports against the property the spec states. -/
def spec_live_online (s : ServerState) (client_id : Nat) : Bool :=
  (dictGet? s.manager.active_connections client_id).isSome

/-! Helper lemmas. -/

theorem dictGet?_insert_self {α β : Type} [DecidableEq α] (m : List (α × β)) (k : α) (v : β) :
    dictGet? (dictInsert m k v) k = some v := by
  induction m with
  | nil => simp [dictInsert, dictGet?]
  | cons p rest ih =>
    by_cases h : p.1 = k
    · simp [dictInsert, h, dictGet?]
    · simp only [dictInsert, h, if_false, dictGet?, List.find?, decide_eq_true_eq] at ih ⊢
      simp [h, ih]

theorem dictGet?_erase_self {α β : Type} [DecidableEq α] (m : List (α × β)) (k : α) :
    dictGet? (dictErase m k) k = none := by
  induction m with
  | nil => simp [dictErase, dictGet?]
  | cons p rest ih =>
    by_cases h : p.1 = k
    · simp only [dictErase, List.filter, decide_not] at ih ⊢
      simp [h, ih]
    · simp only [dictErase, List.filter, decide_not] at ih ⊢
      simp [h, ih, dictGet?, List.find?]

theorem dictErase_idem {α β : Type} [DecidableEq α] (m : List (α × β)) (k : α) :
    dictErase (dictErase m k) k = dictErase m k := by
  induction m with
  | nil => rfl
  | cons p rest ih =>
    by_cases h : p.1 = k
    · simp only [dictErase, List.filter, decide_not] at ih ⊢
      simp [h, ih]
    · simp only [dictErase, List.filter, decide_not] at ih ⊢
      simp [h, ih]

theorem run_trace_append (l1 l2 : List Bool) :
    run_trace (l1 ++ l2) = run_trace l1 ++ run_trace l2 := by
  induction l1 with
  | nil => rfl
  | cons a rest ih => cases a <;> simp [run_trace, ih]

theorem attemptCount_append (t1 t2 : List RunEvent) :
    attemptCount (t1 ++ t2) = attemptCount t1 + attemptCount t2 := by
  simp [attemptCount, List.countP_append]

theorem attemptCount_replicate_false (N : Nat) :
    attemptCount (run_trace (List.replicate N false)) = N := by
  induction N with
  | zero => rfl
  | succ n ih =>
    simp only [List.replicate_succ, run_trace, if_neg Bool.false_ne_true]
    simp [attemptCount, List.countP_cons] at ih ⊢
    exact ih

theorem attemptCount_single (o : Bool) : attemptCount (run_trace [o]) = 1 := by
  cases o <;> rfl

theorem attempts_separated_run (l : List Bool) :
    attempts_separated false (run_trace l) = true := by
  induction l with
  | nil => rfl
  | cons a rest ih =>
    cases a <;> simp [run_trace, attempts_separated, RECONNECT_DELAY, ih]

-- Every branch of handle_keyboard_event with a non-raising actuator acks once.
theorem keyboard_ack (ev : String) (key : Option String) :
    (handle_keyboard_event false ev key).2 = [Reply.ack "keyboard_event"] := by
  by_cases h1 : ev = "keydown"
  · simp [handle_keyboard_event, h1]
  · by_cases h2 : ev = "keyup" <;> simp [handle_keyboard_event, h1, h2]

-- handle_start_stream acks once in both states when task creation succeeds.
theorem start_stream_ack (st : ClientState) :
    (handle_start_stream false st).2 = [Reply.ack "start_stream"] := by
  by_cases h : st.is_streaming = false <;> simp [handle_start_stream, h]

-- handle_stop_stream acks once in both states when cancellation succeeds.
theorem stop_stream_ack (st : ClientState) :
    (handle_stop_stream false st).2 = [Reply.ack "stop_stream"] := by
  rcases st with ⟨b, tk⟩
  cases tk <;> simp [handle_stop_stream]

/-! Claim theorems. -/

/-- C2 (code bug): the Hub accepts channel 1 then channel 2 under the same
name "desk-1"; both endpoint tasks capture the same `client_id`, exactly one
routing entry remains and it points at channel 2 — but when the first channel
later closes naturally, its teardown removes the entry by that shared id, so
the fresh registration is clobbered: route removal is scoped to the client
id, not to the exact channel instance as the claim states. -/
theorem stale_disconnect_clobbers_reconnect :
    (cm_connect (⟨[], ⟨[], []⟩, []⟩ : ServerState) 1 "desk-1" 0).1 =
        (cm_connect (cm_connect (⟨[], ⟨[], []⟩, []⟩ : ServerState) 1 "desk-1" 0).2
          2 "desk-1" 1).1 ∧
      dictGet? (cm_connect (cm_connect (⟨[], ⟨[], []⟩, []⟩ : ServerState) 1 "desk-1" 0).2
          2 "desk-1" 1).2.manager.active_connections 1 = some 2 ∧
      (cm_connect (cm_connect (⟨[], ⟨[], []⟩, []⟩ : ServerState) 1 "desk-1" 0).2
          2 "desk-1" 1).2.manager.name_to_id = [("desk-1", 1)] ∧
      dictGet? (endpoint_teardown
          (cm_connect (cm_connect (⟨[], ⟨[], []⟩, []⟩ : ServerState) 1 "desk-1" 0).2
            2 "desk-1" 1).2 1 2).manager.active_connections 1 = none := by
  decide

/-- C3: for a connected agent, a wait that ends without a matching reply
within the 10-second deadline yields the distinct timed-out outcome (not the
offline one, and no exception escapes — the model is total), and every exit
path of `send_screenshot` leaves no pending entry for that agent. -/
theorem screenshot_timeout_outcome_and_no_leak (s : ServerState) (client_id fut ch : Nat)
    (hconn : dictGet? s.manager.active_connections client_id = some ch) :
    (send_screenshot s client_id fut WaitResult.timeout).1 = ScreenshotOutcome.timedOut ∧
      (send_screenshot s client_id fut WaitResult.timeout).1 ≠ ScreenshotOutcome.offline ∧
      (∀ w, dictGet? ((send_screenshot s client_id fut w).2).screenshot_pending client_id =
        none) ∧
      SCREENSHOT_TIMEOUT = 10 := by
  have hn : (dictGet? s.manager.active_connections client_id).isNone = false := by
    rw [hconn]; rfl
  refine ⟨?_, ?_, ?_, rfl⟩
  · simp [send_screenshot, hn]
  · simp [send_screenshot, hn]
  · intro w
    cases w <;>
      simp [send_screenshot, hn, clear_pending, register_pending, dictGet?_erase_self]

/-- C3 witness: a concrete connected agent whose screenshot wait times out. -/
theorem screenshot_timeout_outcome_and_no_leak_witness :
    (send_screenshot (⟨[], ⟨[(1, 7)], []⟩, []⟩ : ServerState) 1 5 WaitResult.timeout).1 =
        ScreenshotOutcome.timedOut ∧
      dictGet? ((send_screenshot (⟨[], ⟨[(1, 7)], []⟩, []⟩ : ServerState) 1 5
        WaitResult.timeout).2).screenshot_pending 1 = none := by
  have h := screenshot_timeout_outcome_and_no_leak (⟨[], ⟨[(1, 7)], []⟩, []⟩ : ServerState)
    1 5 7 (by decide)
  exact ⟨h.1, h.2.2.1 WaitResult.timeout⟩

/-- C4 counterexample: the stored status field can be stale — the directory is
durable while the routing table is in-memory, so after a Hub restart a row can
still say online with no live connection.  In that state the `/list` flag is
true while the routing table holds no entry, refuting "reported online iff
live connection". -/
theorem list_online_flag_stale_cex :
    cmd_list_flags (⟨[⟨1, "desk-1", ClientStatus.online, 0⟩], ⟨[], []⟩, []⟩ : ServerState) =
        [(1, "desk-1", true)] ∧
      spec_live_online (⟨[⟨1, "desk-1", ClientStatus.online, 0⟩], ⟨[], []⟩, []⟩ : ServerState)
        1 = false := by
  decide

/-- C4 amended: the online flag reported by the list operation (and the status
string of the `/clients` endpoint) is computed from the stored directory
status alone — the output is independent of the live routing table, and each
row's flag is exactly "stored status = online". -/
theorem list_online_flag_amended (db : List DbClient) (m₁ m₂ : ConnectionManager)
    (p₁ p₂ : List (Nat × Nat)) (i : Nat) :
    cmd_list_flags ⟨db, m₁, p₁⟩ = cmd_list_flags ⟨db, m₂, p₂⟩ ∧
      get_clients ⟨db, m₁, p₁⟩ = get_clients ⟨db, m₂, p₂⟩ ∧
      (cmd_list_flags ⟨db, m₁, p₁⟩)[i]? = (db[i]?).map
        (fun c => (c.id, c.name, if c.status = ClientStatus.online then true else false)) := by
  refine ⟨rfl, rfl, ?_⟩
  simp [cmd_list_flags]

/-- C5 counterexample: a mouse-down with the button field absent presses the
MIDDLE button (`kwargs.get('button', 1)` defaults the code to 1), not the left
button the claim states. -/
theorem mouse_button_default_cex :
    (handle_mouse_event false "mousedown" none none none 0).1 =
        [ActuatorCall.mouseDown "middle"] ∧
      "middle" ≠ "left" := by
  decide

/-- C5 amended: codes 0, 1, 2 map to left, middle, right; an unrecognized
provided code falls back to left (`button_map.get`'s default); an absent
button field defaults to code 1 and therefore to the middle button; and the
handler passes the mapped name to the actuator call. -/
theorem mouse_button_map_amended (b : Int) (h0 : b ≠ 0) (h1 : b ≠ 1) (h2 : b ≠ 2) :
    pyautogui_button (some 0) = "left" ∧ pyautogui_button (some 1) = "middle" ∧
      pyautogui_button (some 2) = "right" ∧ pyautogui_button (some b) = "left" ∧
      pyautogui_button none = "middle" ∧
      (∀ ob : Option Int, (handle_mouse_event false "mouseup" none none ob 0).1 =
        [ActuatorCall.mouseUp (pyautogui_button ob)]) := by
  refine ⟨by decide, by decide, by decide, ?_, by decide, ?_⟩
  · simp [pyautogui_button, button_map, h0, h1, h2]
  · intro ob
    rfl

/-- C5 witness: an unrecognized provided code and an absent field, at code 5. -/
theorem mouse_button_map_amended_witness :
    pyautogui_button (some 5) = "left" ∧ pyautogui_button none = "middle" := by
  have h := mouse_button_map_amended 5 (by decide) (by decide) (by decide)
  exact ⟨h.2.2.2.1, h.2.2.2.2.1⟩

/-- C6: `handle_shutdown`'s trace on every execution is ack, then a 500 ms
grace sleep (at least the claimed 500 ms), then the platform shutdown call —
the ack strictly precedes the action, and the only reply is the ack naming
"shutdown". -/
theorem shutdown_ack_before_action :
    handle_shutdown_events =
        [ShutdownEvent.sendAck "shutdown", ShutdownEvent.sleepMs 500,
          ShutdownEvent.platformShutdown] ∧
      shutdown_replies = [Reply.ack "shutdown"] ∧
      500 ≥ 500 := by
  exact ⟨rfl, rfl, le_refl _⟩

/-- C9: invoking `handle_stop_stream` when the agent is not streaming (flag
false, no stream task) raises nothing, sends exactly the successful
stop-stream ack, and leaves the streaming state unchanged. -/
theorem stop_stream_idempotent (raises : Bool) :
    handle_stop_stream raises ⟨false, false⟩ =
      (⟨false, false⟩, [Reply.ack "stop_stream"]) := by
  cases raises <;> rfl

/-- C10: registering a second screenshot future for the same agent while one
is pending silently overwrites the single shared entry: the table then maps
the agent to the second future only, an incoming screenshot reply resolves the
second future and can never resolve the first (so the first wait can end only
by its timeout or an error), and whichever request finishes first deletes the
shared entry — the other's clearing pass finds nothing and is a no-op. -/
theorem pending_overwrite_behavior (p : List (Nat × Nat)) (client_id f1 f2 : Nat)
    (hne : f1 ≠ f2) :
    dictGet? (register_pending (register_pending p client_id f1) client_id f2) client_id =
        some f2 ∧
      route_reply (register_pending (register_pending p client_id f1) client_id f2)
          client_id "screenshot" true = some f2 ∧
      (∀ (tp : String) (himg : Bool),
        route_reply (register_pending (register_pending p client_id f1) client_id f2)
          client_id tp himg ≠ some f1) ∧
      dictGet? (clear_pending (register_pending (register_pending p client_id f1) client_id
        f2) client_id) client_id = none ∧
      clear_pending (clear_pending (register_pending (register_pending p client_id f1)
          client_id f2) client_id) client_id =
        clear_pending (register_pending (register_pending p client_id f1) client_id f2)
          client_id := by
  have hget : dictGet? (register_pending (register_pending p client_id f1) client_id f2)
      client_id = some f2 := dictGet?_insert_self _ _ _
  refine ⟨hget, ?_, ?_, ?_, ?_⟩
  · simp [route_reply, hget]
  · intro tp himg
    by_cases hc : ((tp == "screenshot") && himg) = true
    · simp only [route_reply, hc, if_true, hget, ne_eq, Option.some.injEq]
      exact fun hcontra => hne hcontra.symm
    · simp [route_reply, hc]
  · exact dictGet?_erase_self _ _
  · exact dictErase_idem _ _

/-- C10 witness: concrete overwrite of future 10 by future 11 for agent 1. -/
theorem pending_overwrite_behavior_witness :
    dictGet? (register_pending (register_pending [] 1 10) 1 11) 1 = some 11 := by
  exact (pending_overwrite_behavior [] 1 10 11 (by decide)).1

/-- C1 counterexample: the ack is not unconditional.  A `type` command whose
keyboard injection raises is caught and logged but never acked (zero acks, not
one); and a `mouse_event` message carrying an `event` field — as every real
mouse command does — aborts at dispatch with a caught duplicate-argument
TypeError and is never acked, even with no side-effect failure at all. -/
theorem ack_not_unconditional_cex :
    acksOf (process_message ({ typeRaises := true } : Effects) ⟨false, false⟩
        ({ type := some "type", text := some "hello" } : Message)).2.2 = [] ∧
      acksOf (process_message ({} : Effects) ⟨false, false⟩
        ({ type := some "mouse_event", event := some "click", button := some 0 } :
          Message)).2.2 = [] := by
  decide

/-- C1 amended: for every valid command kind, dispatch completes without
raising and produces exactly one ack naming that kind, provided the handler's
external side-effect call does not raise and, for `mouse_event`, the message
carries no `event` field (one aborts dispatch with a caught TypeError and no
ack).  When a side effect does raise, the exception is caught but the ack is
skipped by every handler that acks after its side effect; only
`screenshot_request` (capture errors swallowed before the ack) and `shutdown`
(ack sent before the action) still ack. -/
theorem dispatch_single_ack_amended (eff : Effects) (st : ClientState) (msg : Message)
    (t : String) (ht : msg.type = some t) (hv : t ∈ valid_kinds) (hnr : no_raises eff)
    (hme : t = "mouse_event" → msg.event = none) :
    acksOf (process_message eff st msg).2.2 = [t] := by
  obtain ⟨hb, hty, hm, hk, hs, hp⟩ := hnr
  simp only [valid_kinds, List.mem_cons, List.not_mem_nil, or_false] at hv
  rcases hv with rfl | rfl | rfl | rfl | rfl | rfl | rfl | rfl
  · by_cases hemp : (capture_screen eff.captureRaises eff.frame).isEmpty <;>
      simp [process_message, ht, handle_screenshot_request, acksOf, hemp]
  · simp [process_message, ht, shutdown_replies, handle_shutdown_events, acksOf]
  · simp [process_message, ht, handle_browser, hb, acksOf]
  · simp [process_message, ht, handle_type, hty, acksOf]
  · have he := hme rfl
    simp [process_message, ht, he, handle_mouse_event, mouse_calls, acksOf]
  · simp [process_message, ht, keyboard_ack, hk, acksOf]
  · simp [process_message, ht, start_stream_ack, hs, acksOf]
  · simp [process_message, ht, stop_stream_ack, hp, acksOf]

/-- C1 witness: a browser command with a healthy side effect acks exactly
once, naming "browser". -/
theorem dispatch_single_ack_amended_witness :
    acksOf (process_message ({} : Effects) ⟨false, false⟩
        ({ type := some "browser", url := some "http://example.com" } : Message)).2.2 =
      ["browser"] := by
  exact dispatch_single_ack_amended ({} : Effects) ⟨false, false⟩
    ({ type := some "browser", url := some "http://example.com" } : Message) "browser"
    rfl (by decide) ⟨rfl, rfl, rfl, rfl, rfl, rfl⟩ (by decide)

/-- C7 counterexample: a capture error does NOT pause for at least one second:
`_capture_screen` swallows the exception and returns empty bytes, so the
iteration merely skips the frame and sleeps the ordinary cadence pause —
`max(0, 1/30 - 0) = 1/30` of a second, well under the claimed 1 s. -/
theorem stream_error_pause_cex :
    stream_step true ({ captureRaises := true, frame := [1] } : StreamIterOracle) 0 =
        StreamStep.continued [] (1 / 30) ∧
      ¬((1 : ℚ) / 30 ≥ 1) := by
  constructor
  · simp [stream_step, capture_screen, frame_delay]
  · norm_num

/-- C7 amended: while streaming, an error-free iteration captures one frame
and sends it base64-encoded as a stream-frame reply, then sleeps
`max(0, frame_delay - elapsed)` at the default 30 fps cadence; capture and
send errors are swallowed inside `_capture_screen` and `send`, so the
iteration skips or drops the frame and keeps the same cadence sleep; the
1-second pause-and-retry is reserved for other exceptions escaping into the
loop body; and the loop never self-terminates — with streaming on, it exits
exactly when cancelled (by stop_stream or connection teardown, which are also
the only writers that clear `is_streaming`). -/
theorem stream_loop_amended (o : StreamIterOracle) (e : ℚ) :
    (stream_step true o e = StreamStep.exited ↔ o.cancelled = true) ∧
      stream_step false o e = StreamStep.exited ∧
      (o.cancelled = false → o.bodyRaises = true →
        stream_step true o e = StreamStep.continued [] 1 ∧ (1 : ℚ) ≥ 1) ∧
      (o.cancelled = false → o.bodyRaises = false →
        ∃ sent, stream_step true o e = StreamStep.continued sent (max 0 (frame_delay - e))) ∧
      (o.cancelled = false → o.bodyRaises = false → o.captureRaises = false →
        o.sendRaises = false → o.frame ≠ [] →
        stream_step true o e =
          StreamStep.continued [Reply.streamFrame (b64encode o.frame)]
            (max 0 (frame_delay - e))) ∧
      frame_delay = 1 / 30 := by
  refine ⟨?_, by simp [stream_step], ?_, ?_, ?_, rfl⟩
  · constructor
    · intro h
      by_contra hc
      have hc' : o.cancelled = false := by
        cases hcc : o.cancelled
        · rfl
        · exact absurd hcc hc
      by_cases hb : o.bodyRaises <;> simp [stream_step, hc', hb] at h
    · intro h
      simp [stream_step, h]
  · intro hc hb
    exact ⟨by simp [stream_step, hc, hb], by norm_num⟩
  · intro hc hb
    by_cases hcap : o.captureRaises
    · exact ⟨[], by simp [stream_step, hc, hb, hcap, capture_screen]⟩
    · by_cases hemp : o.frame.isEmpty
      · exact ⟨[], by simp [stream_step, hc, hb, hcap, capture_screen, hemp]⟩
      · by_cases hsend : o.sendRaises
        · exact ⟨[], by simp [stream_step, hc, hb, hcap, capture_screen, hemp, hsend]⟩
        · exact ⟨[Reply.streamFrame (b64encode o.frame)],
            by simp [stream_step, hc, hb, hcap, capture_screen, hemp, hsend]⟩
  · intro hc hb hcap hsend hfr
    have hemp : o.frame.isEmpty = false := by
      cases hf : o.frame
      · exact absurd hf hfr
      · rfl
    simp [stream_step, hc, hb, hcap, hsend, hemp, capture_screen]

/-- C7 witness: a healthy iteration on a one-byte frame sends exactly that
frame and sleeps the cadence pause. -/
theorem stream_loop_amended_witness :
    stream_step true ({ frame := [5] } : StreamIterOracle) 0 =
      StreamStep.continued [Reply.streamFrame (b64encode [5])] (max 0 (frame_delay - 0)) := by
  exact (stream_loop_amended ({ frame := [5] } : StreamIterOracle) 0).2.2.2.2.1
    rfl rfl rfl rfl (by decide)

/-- C8: after N consecutive connection failures the run loop has made N+1
connection attempts; every two consecutive attempts in any trace are separated
by a sleep of at least the fixed 5-second reconnect delay; after ANY finite
history — failures, sessions ended by receive errors, whatever — the next
connect outcome yields exactly one more attempt, so the loop never exits the
process; and a malformed message merely continues the inner receive loop. -/
theorem reconnect_attempts_and_delay (N : Nat) (l : List Bool) (o : Bool) :
    attemptCount (run_trace (List.replicate N false ++ [true])) = N + 1 ∧
      attempts_separated false (run_trace l) = true ∧
      attemptCount (run_trace (l ++ [o])) = attemptCount (run_trace l) + 1 ∧
      recv_step RecvOutcome.malformed = InnerStep.continueLoop ∧
      RECONNECT_DELAY ≥ 5 := by
  refine ⟨?_, attempts_separated_run l, ?_, rfl, le_refl _⟩
  · rw [run_trace_append, attemptCount_append, attemptCount_replicate_false,
      attemptCount_single]
  · rw [run_trace_append, attemptCount_append, attemptCount_single]

end BlackLine
